import Mathlib

/-!
Verification of the project-management backend in `Backend/app.py`.

The program is a thin HTTP backend: an in-memory store of projects and
per-project chat messages (`projects`, `project_messages`), one handler per
endpoint, and one blocking call per text-generation request to an external
chat-completion provider.  The embedding below translates each handler into a
pure Lean function over an explicit application state, with the completion
provider modelled as a function parameter that either returns text or fails.
-/

/-- JSON values that occur in request bodies and stored records.  Only null
and strings are relevant to this backend; `JVal.null` also models the Python
value `None` returned by `dict.get` on an absent key. -/
inductive JVal where
  | null : JVal
  | str : String → JVal
deriving DecidableEq, Repr

/-- A parsed JSON request body: an association list from field names to
values (the result of `request.get_json()`). -/
abbrev Body : Type := List (String × JVal)

/-- Lookup of a field in a request body; `none` means the key is absent
(as opposed to present with a null value). -/
def bodyGet : Body → String → Option JVal
  | [], _ => none
  | (k, v) :: rest, key => if k = key then some v else bodyGet rest key

/-- Python `data.get(key)`: the stored value, or `None` when the key is
absent. -/
def jget (b : Body) (key : String) : JVal :=
  (bodyGet b key).getD JVal.null

/-- Python `data.get(key, default)` with a string default: the stored value
when the key is present (even if that value is null), otherwise the default
string. -/
def jgetD (b : Body) (key : String) (d : String) : JVal :=
  (bodyGet b key).getD (JVal.str d)

/-- Conversion of a value to the text an f-string interpolates for it:
Python renders `None` as the four characters of the word None, and a string
as itself. -/
def pyStr : JVal → String
  | JVal.null => "None"
  | JVal.str s => s

/-- Python truthiness of the values a request field can hold: `None` and the
empty string are falsy, every other string is truthy. -/
def truthy : JVal → Bool
  | JVal.null => false
  | JVal.str s => s != ""

/-- A stored project record, as built by `create_project`:
`{'id': project_id, 'name': name}`.  The name is a `JVal` because a request
body may bind the name field to null. -/
structure Project where
  id : String
  name : JVal
deriving DecidableEq, Repr

/-- A stored chat message, as built by `format_update`:
`{'role': ..., 'content': ...}`. -/
structure Message where
  role : String
  content : JVal
deriving DecidableEq, Repr

/-- The `project_messages` dictionary: project id to ordered message list,
in insertion order. -/
abbrev MsgDict : Type := List (String × List Message)

/-- Dictionary lookup (`d.get(k)` / `d[k]`): the value at the first entry
whose key matches. -/
def dictGet : MsgDict → String → Option (List Message)
  | [], _ => none
  | (k, v) :: rest, key => if k = key then some v else dictGet rest key

/-- Python `d.get(k, [])`. -/
def dictGetD (d : MsgDict) (key : String) : List Message :=
  (dictGet d key).getD []

/-- Python `k in d`. -/
def dictMem (d : MsgDict) (key : String) : Bool :=
  (dictGet d key).isSome

/-- Python `d[k] = v`: overwrite the entry if the key is present, otherwise
add a new entry at the end (dicts preserve insertion order). -/
def dictSet : MsgDict → String → List Message → MsgDict
  | [], key, v => [(key, v)]
  | (k, w) :: rest, key, v =>
      if k = key then (key, v) :: rest else (k, w) :: dictSet rest key v

/-- Python `d[k].append(m)`: append one message to the list stored under the
key; entries under other keys are untouched.  The handlers only apply this
under a `k in d` guard, so the key is always present where it is used. -/
def dictAppendMsg : MsgDict → String → Message → MsgDict
  | [], _, _ => []
  | (k, v) :: rest, key, m =>
      if k = key then (k, v ++ [m]) :: rest
      else (k, v) :: dictAppendMsg rest key m

/-- The process-wide mutable state of the backend: the `projects` list, the
`project_messages` dictionary, and the supply for fresh project ids.  The
source draws ids from `str(uuid4())`; the uuid generator is modelled as a
counter-driven supply of opaque strings (`genId`), keeping exactly the
property the source relies on: each generated id is new. -/
structure AppState where
  projects : List Project
  project_messages : MsgDict
  nextId : Nat
deriving DecidableEq, Repr

/-- The id produced for the n-th creation.  Distinct counter values give
distinct strings (witnessed by length), modelling uuid uniqueness. -/
def genId (n : Nat) : String :=
  String.mk (List.replicate n 'u') ++ "-id"

/-- The state at process start: no projects, no messages. -/
def initState : AppState :=
  { projects := [], project_messages := [], nextId := 0 }

/-- The completion gateway: a synchronous call taking the system-role string
and the user-role prompt, returning the first choice text or failing
(network error, provider error, malformed response). -/
abbrev Completion : Type := String → String → Except String String

/-- Request body field names. -/
def nameKey : String := "name"

def updateKey : String := "update"

def projectIdKey : String := "project_id"

def projectNameKey : String := "project_name"

def sentimentKey : String := "sentiment"

def roleUser : String := "user"

def roleBot : String := "bot"

/-- System-role string of the format handler. -/
def formatSystem : String := "You are a helpful project assistant."

/-- System-role string of the summarize handler. -/
def summarizeSystem : String := "You are a senior project manager assistant."

/-- System-role string of the action-items handler. -/
def actionItemsSystem : String :=
  "You are a project management AI that extracts action items as a concise numbered markdown list with bolded titles."

/-- System-role string of the sentiment handler. -/
def sentimentSystem : String := "You are a sentiment analysis AI."

/-- System-role string of the email handler. -/
def emailSystem : String := "You are an expert project manager and email writer."

/-- Prompt template of `format_update`, with the update text interpolated. -/
def format_prompt (u : String) : String :=
  "\nYou are a Project Management Assistant. Reformat the following update into 5 structured sections:\n✅ Current Phase\n🔜 Next Stage\n⛔ Blockers\n🛠 Actions Required\n📅 Timeline or Deadline\n\nFor each section:\n- Use bullet points for each item.\n- Highlight key points using bold text or emojis.\n- Make the update easy to read and visually clear.\n\n---\nUpdate: " ++ u ++ "\n"

/-- Prompt template of `summarize_project`, with the notes interpolated. -/
def summarize_prompt (n : String) : String :=
  "\nAct as a professional project manager. Given the following project notes, summarize the current project status clearly and concisely for stakeholders. Include:\n- Project progress\n- Current blockers\n- Next steps\n- Timeline and any deadlines\n\nUse clear bullet points and structure.\n\n---\nNotes: " ++ n ++ "\n"

/-- Prompt template of `extract_action_items`, with project name and updates
interpolated. -/
def action_items_prompt (pname u : String) : String :=
  "\nExtract all specific action items from the following project updates. For each action item, write a single, clear sentence starting with a numbered markdown bullet (e.g., 1.), then the action title in bold (using markdown, e.g., **Title**), followed by a colon and a concise description. Keep each action item to a maximum of 1-2 lines. List each action item on a new line as a separate numbered bullet. Do not use JSON or field labels. Only return the list of action items. If there are no specific action items, reply with: No specific action items found in the provided updates.\n\nExample:\n1. **Finalize Vendor Selection**: Follow up with Finance to review the latest proposal for the reporting module.\n2. **Resolve Merge Conflict**: Dev team to address the merge conflict in the notification service update.\n3. **Test User Role Flow Changes**: QA to test the user role flow changes once staging env stabilizes.\n\n---\nProject: " ++ pname ++ "\nUpdates: " ++ u ++ "\n"

/-- Prompt template of `analyze_sentiment`, with project name and updates
interpolated. -/
def sentiment_prompt (pname u : String) : String :=
  "\nAnalyze the overall sentiment of the following project updates. Respond in the following format:\n\nAI\nOverall sentiment: <Positive/Neutral/Negative>\n\nExplanation: <A brief explanation of the tone and key points in the updates.>\n\n---\nProject: " ++ pname ++ "\nUpdates: " ++ u ++ "\n"

/-- Prompt template of `generate_email`, with sentiment, project name and
updates interpolated. -/
def email_prompt (sent pname u : String) : String :=
  "\nWrite a professional project update email for the following project. Use the sentiment: " ++ sent ++ ".\n\n---\nProject: " ++ pname ++ "\nUpdates: " ++ u ++ "\n"

/-- The user-role prompt `format_update` sends: the template filled with
`data.get('update')` as the f-string renders it. -/
def format_user_prompt (body : Body) : String :=
  format_prompt (pyStr (jget body updateKey))

/-- The user-role prompt `summarize_project` sends. -/
def summarize_user_prompt (body : Body) : String :=
  summarize_prompt (pyStr (jget body updateKey))

/-- The user-role prompt `extract_action_items` sends;
`data.get('project_name', '')` defaults the name slot to the empty string. -/
def action_user_prompt (body : Body) : String :=
  action_items_prompt (pyStr (jgetD body projectNameKey (""))) (pyStr (jget body updateKey))

/-- The user-role prompt `analyze_sentiment` sends. -/
def sentiment_user_prompt (body : Body) : String :=
  sentiment_prompt (pyStr (jgetD body projectNameKey (""))) (pyStr (jget body updateKey))

/-- The user-role prompt `generate_email` sends;
`data.get('sentiment', '')` defaults the sentiment slot to the empty
string. -/
def email_user_prompt (body : Body) : String :=
  email_prompt (pyStr (jgetD body sentimentKey ("")))
    (pyStr (jgetD body projectNameKey (""))) (pyStr (jget body updateKey))

/-- Characters Python `str.strip()` removes (the ASCII whitespace class). -/
def isPySpace (c : Char) : Bool :=
  c = ' ' || c = '\t' || c = '\n' || c = '\x0d' || c = '\x0b' || c = '\x0c'

/-- Python `s.strip()`: the string with leading and trailing whitespace
removed. -/
def pyStrip (s : String) : String :=
  String.mk (((s.data.dropWhile isPySpace).reverse.dropWhile isPySpace).reverse)

/-- Handler of `GET /projects`: returns the project list, state unchanged. -/
def get_projects (s : AppState) : List Project × AppState :=
  (s.projects, s)

/-- Handler of `POST /projects`: name defaults to the auto-numbered string
only when the name key is absent; a fresh id is generated, the project is
appended, and an empty message list is installed under the new id. -/
def create_project (body : Body) (s : AppState) : Project × AppState :=
  let name := jgetD body nameKey ("Project " ++ toString (s.projects.length + 1))
  let project_id := genId s.nextId
  let project : Project := { id := project_id, name := name }
  (project,
    { projects := s.projects ++ [project],
      project_messages := dictSet s.project_messages project_id [],
      nextId := s.nextId + 1 })

/-- Handler of `GET /projects/<project_id>/messages`:
`project_messages.get(project_id, [])`, state unchanged. -/
def get_project_messages (project_id : String) (s : AppState) : List Message :=
  dictGetD s.project_messages project_id

/-- Handler of `POST /format`: builds the prompt, calls the gateway, and —
only if the call returned and `project_id` is truthy and a known key —
appends the user message (raw update) then the bot message (formatted text).
Returns the formatted text.  A gateway failure propagates before any store
write. -/
def format_update (gw : Completion) (body : Body) (s : AppState) :
    Except String (String × AppState) :=
  let raw_update := jget body updateKey
  let project_id := jget body projectIdKey
  match gw formatSystem (format_user_prompt body) with
  | Except.error e => Except.error e
  | Except.ok formatted =>
      let userMsg : Message := { role := roleUser, content := raw_update }
      let botMsg : Message := { role := roleBot, content := JVal.str formatted }
      let pm2 :=
        dictAppendMsg (dictAppendMsg s.project_messages (pyStr project_id) userMsg)
          (pyStr project_id) botMsg
      let s2 :=
        if truthy project_id && dictMem s.project_messages (pyStr project_id) then
          { s with project_messages := pm2 }
        else s
      Except.ok (formatted, s2)

/-- Handler of `POST /summarize`: builds the prompt, calls the gateway,
returns the summary; the store is never written. -/
def summarize_project (gw : Completion) (body : Body) (s : AppState) :
    Except String (String × AppState) :=
  match gw summarizeSystem (summarize_user_prompt body) with
  | Except.error e => Except.error e
  | Except.ok summary => Except.ok (summary, s)

/-- Handler of `POST /action-items`: returns the gateway text with
`.strip()` applied; the store is never written. -/
def extract_action_items (gw : Completion) (body : Body) (s : AppState) :
    Except String (String × AppState) :=
  match gw actionItemsSystem (action_user_prompt body) with
  | Except.error e => Except.error e
  | Except.ok t => Except.ok (pyStrip t, s)

/-- Handler of `POST /sentiment`: returns the gateway text with `.strip()`
applied; the store is never written. -/
def analyze_sentiment (gw : Completion) (body : Body) (s : AppState) :
    Except String (String × AppState) :=
  match gw sentimentSystem (sentiment_user_prompt body) with
  | Except.error e => Except.error e
  | Except.ok t => Except.ok (pyStrip t, s)

/-- Handler of `POST /generate-email`: returns the gateway text unchanged;
the store is never written. -/
def generate_email (gw : Completion) (body : Body) (s : AppState) :
    Except String (String × AppState) :=
  match gw emailSystem (email_user_prompt body) with
  | Except.error e => Except.error e
  | Except.ok email => Except.ok (email, s)

/-- Handler of `POST /create-checkout-session`: a stub returning a fixed
URL; the store is never touched. -/
def create_checkout_session (s : AppState) : String × AppState :=
  ("https://example.com/checkout", s)

/-- One request to the backend, with its inputs (and, for the generation
endpoints, the behaviour of the external provider during that request). -/
inductive Op where
  | listProjects : Op
  | createProject : Body → Op
  | listMessages : String → Op
  | format : Completion → Body → Op
  | summarize : Completion → Body → Op
  | actionItems : Completion → Body → Op
  | sentimentOp : Completion → Body → Op
  | genEmail : Completion → Body → Op
  | checkout : Op

/-- The state after serving one request.  A handler that raises (gateway
failure) leaves the process state as it was. -/
def runOp (s : AppState) : Op → AppState
  | Op.listProjects => (get_projects s).2
  | Op.createProject body => (create_project body s).2
  | Op.listMessages _ => s
  | Op.format gw body =>
      match format_update gw body s with
      | Except.ok r => r.2
      | Except.error _ => s
  | Op.summarize gw body =>
      match summarize_project gw body s with
      | Except.ok r => r.2
      | Except.error _ => s
  | Op.actionItems gw body =>
      match extract_action_items gw body s with
      | Except.ok r => r.2
      | Except.error _ => s
  | Op.sentimentOp gw body =>
      match analyze_sentiment gw body s with
      | Except.ok r => r.2
      | Except.error _ => s
  | Op.genEmail gw body =>
      match generate_email gw body s with
      | Except.ok r => r.2
      | Except.error _ => s
  | Op.checkout => (create_checkout_session s).2

/-- The state after serving a sequence of requests. -/
def runOps (s : AppState) (ops : List Op) : AppState :=
  ops.foldl runOp s

/-- States the backend can actually be in: reachable from process start by
some sequence of requests. -/
def Reachable (s : AppState) : Prop :=
  ∃ ops : List Op, runOps initState ops = s

/-- Number of create-project requests in a request sequence. -/
def countCreates : List Op → Nat
  | [] => 0
  | Op.createProject _ :: rest => countCreates rest + 1
  | _ :: rest => countCreates rest

/-- A gateway that always answers with the given text. -/
def gwOk (t : String) : Completion := fun _ _ => Except.ok t

/-- A gateway whose call always fails with the given error. -/
def gwFail (e : String) : Completion := fun _ _ => Except.error e

/-- The state after one create-project request with an empty body. -/
def stateOne : AppState := runOp initState (Op.createProject [])

/-- The state `stateOne` with the user and bot messages of one format
request recorded under the first project id. -/
def stateTwo : AppState :=
  { stateOne with project_messages :=
      [(genId 0, [⟨roleUser, JVal.str ("u")⟩, ⟨roleBot, JVal.str ("F")⟩])] }

/-- A format request body naming the first created project. -/
def bodyKnown : Body := [(projectIdKey, JVal.str (genId 0)), (updateKey, JVal.str ("u"))]

/-- A format request body naming a project id that is not in the store. -/
def bodyUnknown : Body := [(projectIdKey, JVal.str ("zz")), (updateKey, JVal.str ("u"))]

/-- A create-project body binding the name field to a null value. -/
def bodyNullName : Body := [(nameKey, JVal.null)]

/-- The invariant the store maintains: every stored project id (in either
map) came from the fresh-id supply below the current counter, and every
message-dictionary key has a matching project. -/
def StoreInv (s : AppState) : Prop :=
  (∀ e ∈ s.project_messages, ∃ m, m < s.nextId ∧ e.1 = genId m)
    ∧ (∀ p ∈ s.projects, ∃ m, m < s.nextId ∧ p.id = genId m)
    ∧ (∀ e ∈ s.project_messages, ∃ p ∈ s.projects, p.id = e.1)

theorem genId_injective : Function.Injective genId := by
  intro m n h
  have hlen := congrArg String.length h
  simpa [genId, String.length, List.length_append] using hlen

theorem genId_ne_empty (n : Nat) : genId n ≠ "" := by
  intro h
  have hlen := congrArg String.length h
  simp [genId, String.length, List.length_append] at hlen

theorem dictGet_dictAppendMsg_self (d : MsgDict) (k : String) (m : Message)
    (v : List Message) (h : dictGet d k = some v) :
    dictGet (dictAppendMsg d k m) k = some (v ++ [m]) := by
  induction d with
  | nil => simp [dictGet] at h
  | cons e rest ih =>
      obtain ⟨k1, v1⟩ := e
      by_cases hk : k1 = k
      · subst hk
        simp [dictGet] at h
        simp [dictAppendMsg, dictGet, h]
      · simp [dictGet, hk] at h
        simp [dictAppendMsg, dictGet, hk, ih h]

theorem dictGet_dictAppendMsg_other (d : MsgDict) (k k2 : String) (m : Message)
    (h : k2 ≠ k) : dictGet (dictAppendMsg d k m) k2 = dictGet d k2 := by
  induction d with
  | nil => simp [dictAppendMsg]
  | cons e rest ih =>
      obtain ⟨k1, v1⟩ := e
      by_cases hk : k1 = k
      · subst hk
        simp [dictAppendMsg, dictGet, Ne.symm h]
      · simp [dictAppendMsg, dictGet, hk, ih]

theorem mem_dictAppendMsg (d : MsgDict) (k : String) (m : Message)
    (e : String × List Message) (h : e ∈ dictAppendMsg d k m) :
    ∃ e0 ∈ d, e.1 = e0.1 := by
  induction d with
  | nil => simp [dictAppendMsg] at h
  | cons e1 rest ih =>
      obtain ⟨k1, v1⟩ := e1
      by_cases hk : k1 = k
      · subst hk
        simp [dictAppendMsg] at h
        rcases h with h | h
        · exact ⟨(k1, v1), by simp [h]⟩
        · exact ⟨e, by simp [h]⟩
      · simp [dictAppendMsg, hk] at h
        rcases h with h | h
        · exact ⟨(k1, v1), by simp [h]⟩
        · obtain ⟨e0, he0, hfst⟩ := ih h
          exact ⟨e0, by simp [he0], hfst⟩

theorem mem_dictSet (d : MsgDict) (k : String) (v : List Message)
    (e : String × List Message) (h : e ∈ dictSet d k v) :
    e.1 = k ∨ e ∈ d := by
  induction d with
  | nil => simp [dictSet] at h; simp [h]
  | cons e1 rest ih =>
      obtain ⟨k1, v1⟩ := e1
      by_cases hk : k1 = k
      · subst hk
        simp [dictSet] at h
        rcases h with h | h
        · exact Or.inl (by simp [h])
        · exact Or.inr (by simp [h])
      · simp [dictSet, hk] at h
        rcases h with h | h
        · exact Or.inr (by simp [h])
        · rcases ih h with h2 | h2
          · exact Or.inl h2
          · exact Or.inr (by simp [h2])

theorem dictGet_dictSet_self (d : MsgDict) (k : String) (v : List Message) :
    dictGet (dictSet d k v) k = some v := by
  induction d with
  | nil => simp [dictSet, dictGet]
  | cons e rest ih =>
      obtain ⟨k1, v1⟩ := e
      by_cases hk : k1 = k
      · subst hk
        simp [dictSet, dictGet]
      · simp [dictSet, dictGet, hk, ih]

theorem mem_dictAppendMsg_two (d : MsgDict) (k : String) (m1 m2 : Message)
    (e : String × List Message)
    (h : e ∈ dictAppendMsg (dictAppendMsg d k m1) k m2) :
    ∃ e0 ∈ d, e.1 = e0.1 := by
  obtain ⟨e1, he1, hf1⟩ := mem_dictAppendMsg _ _ _ _ h
  obtain ⟨e0, he0, hf0⟩ := mem_dictAppendMsg _ _ _ _ he1
  exact ⟨e0, he0, hf1.trans hf0⟩

theorem storeInv_set_messages (s : AppState) (pm2 : MsgDict) (h : StoreInv s)
    (hkeys : ∀ e ∈ pm2, ∃ e0 ∈ s.project_messages, e.1 = e0.1) :
    StoreInv { s with project_messages := pm2 } := by
  obtain ⟨h1, h2, h3⟩ := h
  refine ⟨?_, ?_, ?_⟩
  · intro e he
    obtain ⟨e0, he0, hf⟩ := hkeys e he
    obtain ⟨m, hm, hid⟩ := h1 e0 he0
    exact ⟨m, hm, hf.trans hid⟩
  · exact h2
  · intro e he
    obtain ⟨e0, he0, hf⟩ := hkeys e he
    obtain ⟨p, hp, hid⟩ := h3 e0 he0
    exact ⟨p, hp, hid.trans hf.symm⟩

theorem storeInv_create (body : Body) (s : AppState) (h : StoreInv s) :
    StoreInv (create_project body s).2 := by
  obtain ⟨h1, h2, h3⟩ := h
  refine ⟨?_, ?_, ?_⟩
  · intro e he
    simp only [create_project] at he
    rcases mem_dictSet _ _ _ _ he with hk | hk
    · exact ⟨s.nextId, Nat.lt_succ_self _, hk⟩
    · obtain ⟨m, hm, hid⟩ := h1 e hk
      exact ⟨m, Nat.lt_succ_of_lt hm, hid⟩
  · intro p hp
    simp only [create_project, List.mem_append, List.mem_singleton] at hp
    rcases hp with hp | hp
    · obtain ⟨m, hm, hid⟩ := h2 p hp
      exact ⟨m, Nat.lt_succ_of_lt hm, hid⟩
    · exact ⟨s.nextId, Nat.lt_succ_self _, by simp [hp]⟩
  · intro e he
    simp only [create_project] at he ⊢
    rcases mem_dictSet _ _ _ _ he with hk | hk
    · exact ⟨⟨genId s.nextId, jgetD body nameKey ("Project " ++ toString (s.projects.length + 1))⟩, by simp, by simp [hk]⟩
    · obtain ⟨p, hp, hid⟩ := h3 e hk
      exact ⟨p, by simp [hp], hid⟩

theorem storeInv_runOp (s : AppState) (op : Op) (h : StoreInv s) :
    StoreInv (runOp s op) := by
  cases op with
  | listProjects => exact h
  | createProject body => exact storeInv_create body s h
  | listMessages pid => exact h
  | format gw body =>
      cases hg : gw formatSystem (format_user_prompt body) with
      | error e => simpa [runOp, format_update, hg] using h
      | ok t =>
          simp only [runOp, format_update, hg]
          by_cases hc : truthy (jget body projectIdKey)
              && dictMem s.project_messages (pyStr (jget body projectIdKey))
          · simp only [hc, if_true]
            exact storeInv_set_messages s _ h (fun e he => mem_dictAppendMsg_two _ _ _ _ _ he)
          · simpa [hc] using h
  | summarize gw body =>
      cases hg : gw summarizeSystem (summarize_user_prompt body) with
      | error e => simpa [runOp, summarize_project, hg] using h
      | ok t => simpa [runOp, summarize_project, hg] using h
  | actionItems gw body =>
      cases hg : gw actionItemsSystem (action_user_prompt body) with
      | error e => simpa [runOp, extract_action_items, hg] using h
      | ok t => simpa [runOp, extract_action_items, hg] using h
  | sentimentOp gw body =>
      cases hg : gw sentimentSystem (sentiment_user_prompt body) with
      | error e => simpa [runOp, analyze_sentiment, hg] using h
      | ok t => simpa [runOp, analyze_sentiment, hg] using h
  | genEmail gw body =>
      cases hg : gw emailSystem (email_user_prompt body) with
      | error e => simpa [runOp, generate_email, hg] using h
      | ok t => simpa [runOp, generate_email, hg] using h
  | checkout => exact h

theorem storeInv_runOps (ops : List Op) (s : AppState) (h : StoreInv s) :
    StoreInv (runOps s ops) := by
  induction ops generalizing s with
  | nil => exact h
  | cons op rest ih => exact ih (runOp s op) (storeInv_runOp s op h)

theorem storeInv_initState : StoreInv initState := by
  refine ⟨?_, ?_, ?_⟩ <;> intro e he <;> simp [initState] at he

theorem storeInv_reachable (s : AppState) (h : Reachable s) : StoreInv s := by
  obtain ⟨ops, hops⟩ := h
  exact hops ▸ storeInv_runOps ops initState storeInv_initState

theorem runOps_cons (s : AppState) (op : Op) (rest : List Op) :
    runOps s (op :: rest) = runOps (runOp s op) rest := rfl

theorem countCreates_cons (op : Op) (rest : List Op) :
    countCreates (op :: rest) = countCreates [op] + countCreates rest := by
  cases op <;> (simp [countCreates]; try omega)

theorem length_projects_runOp (s : AppState) (op : Op) :
    (runOp s op).projects.length = s.projects.length + countCreates [op] := by
  cases op with
  | listProjects => simp [runOp, get_projects, countCreates]
  | createProject body => simp [runOp, create_project, countCreates]
  | listMessages pid => simp [runOp, countCreates]
  | format gw body =>
      cases hg : gw formatSystem (format_user_prompt body) with
      | error e => simp [runOp, format_update, hg, countCreates]
      | ok t =>
          simp only [runOp, format_update, hg]
          by_cases hc : truthy (jget body projectIdKey)
              && dictMem s.project_messages (pyStr (jget body projectIdKey))
          · simp [hc, countCreates]
          · simp [hc, countCreates]
  | summarize gw body =>
      cases hg : gw summarizeSystem (summarize_user_prompt body) with
      | error e => simp [runOp, summarize_project, hg, countCreates]
      | ok t => simp [runOp, summarize_project, hg, countCreates]
  | actionItems gw body =>
      cases hg : gw actionItemsSystem (action_user_prompt body) with
      | error e => simp [runOp, extract_action_items, hg, countCreates]
      | ok t => simp [runOp, extract_action_items, hg, countCreates]
  | sentimentOp gw body =>
      cases hg : gw sentimentSystem (sentiment_user_prompt body) with
      | error e => simp [runOp, analyze_sentiment, hg, countCreates]
      | ok t => simp [runOp, analyze_sentiment, hg, countCreates]
  | genEmail gw body =>
      cases hg : gw emailSystem (email_user_prompt body) with
      | error e => simp [runOp, generate_email, hg, countCreates]
      | ok t => simp [runOp, generate_email, hg, countCreates]
  | checkout => simp [runOp, create_checkout_session, countCreates]

theorem length_projects_runOps (ops : List Op) (s : AppState) :
    (runOps s ops).projects.length = s.projects.length + countCreates ops := by
  induction ops generalizing s with
  | nil => simp [runOps, countCreates]
  | cons op rest ih =>
      rw [runOps_cons, ih (runOp s op), length_projects_runOp s op, countCreates_cons op rest]
      omega

theorem dictGet_mem (d : MsgDict) (k : String) (v : List Message)
    (h : dictGet d k = some v) : (k, v) ∈ d := by
  induction d with
  | nil => simp [dictGet] at h
  | cons e rest ih =>
      obtain ⟨k1, v1⟩ := e
      by_cases hk : k1 = k
      · subst hk
        simp [dictGet] at h
        simp [h]
      · simp [dictGet, hk] at h
        simp [ih h]

theorem reachable_key_ne_empty (s : AppState) (h : Reachable s) (pid : String)
    (v : List Message) (hget : dictGet s.project_messages pid = some v) :
    pid ≠ "" := by
  obtain ⟨h1, _, _⟩ := storeInv_reachable s h
  obtain ⟨m, _, hid⟩ := h1 (pid, v) (dictGet_mem _ _ _ hget)
  exact fun hemp => genId_ne_empty m (by simpa [hemp] using hid.symm)

/-- C7: every request to summarize, action-items, sentiment or
generate-email leaves the project sequence and every stored message
sequence unchanged, for every project id value (known, unknown or absent)
and every gateway outcome. -/
theorem spec_C7_generation_ops_frame (gw : Completion) (body : Body) (s : AppState) :
    runOp s (Op.summarize gw body) = s ∧ runOp s (Op.actionItems gw body) = s
      ∧ runOp s (Op.sentimentOp gw body) = s ∧ runOp s (Op.genEmail gw body) = s := by
  refine ⟨?_, ?_, ?_, ?_⟩
  · cases hg : gw summarizeSystem (summarize_user_prompt body) with
    | error e => simp [runOp, summarize_project, hg]
    | ok t => simp [runOp, summarize_project, hg]
  · cases hg : gw actionItemsSystem (action_user_prompt body) with
    | error e => simp [runOp, extract_action_items, hg]
    | ok t => simp [runOp, extract_action_items, hg]
  · cases hg : gw sentimentSystem (sentiment_user_prompt body) with
    | error e => simp [runOp, analyze_sentiment, hg]
    | ok t => simp [runOp, analyze_sentiment, hg]
  · cases hg : gw emailSystem (email_user_prompt body) with
    | error e => simp [runOp, generate_email, hg]
    | ok t => simp [runOp, generate_email, hg]

/-- C8: listing messages of an unknown project id succeeds with the empty
sequence, and listing messages of a known id returns that id's stored
sequence. -/
theorem spec_C8_list_messages_total (s : AppState) (pid : String) :
    (dictGet s.project_messages pid = none → get_project_messages pid s = [])
      ∧ ∀ l, dictGet s.project_messages pid = some l → get_project_messages pid s = l := by
  constructor
  · intro h
    simp [get_project_messages, dictGetD, h]
  · intro l h
    simp [get_project_messages, dictGetD, h]

theorem spec_C8_witness :
    get_project_messages ("zz") stateOne = []
      ∧ get_project_messages (genId 0) stateOne = [] :=
  ⟨(spec_C8_list_messages_total stateOne ("zz")).1 rfl,
    (spec_C8_list_messages_total stateOne (genId 0)).2 [] rfl⟩

/-- C10: when the request body binds the name key to a null value, the
created project keeps that null value as its name; the auto-numbered
default is used only when the key is absent. -/
theorem spec_C10_null_name_kept (s : AppState) (body : Body)
    (h : bodyGet body nameKey = some JVal.null) :
    (create_project body s).1.name = JVal.null
      ∧ (create_project body s).1.name
          ≠ JVal.str ("Project " ++ toString (s.projects.length + 1)) := by
  constructor
  · simp [create_project, jgetD, h]
  · simp [create_project, jgetD, h]

theorem spec_C10_witness :
    (create_project bodyNullName initState).1.name = JVal.null
      ∧ (create_project bodyNullName initState).1.name
          ≠ JVal.str ("Project " ++ toString (initState.projects.length + 1)) :=
  spec_C10_null_name_kept initState bodyNullName rfl

/-- C2: when the gateway call of a format request fails, the handler
propagates the failure and the store is left exactly as it was: the
append happens only after the call has returned text. -/
theorem spec_C2_gateway_failure_no_mutation (gw : Completion) (body : Body)
    (s : AppState) (e : String)
    (hgw : gw formatSystem (format_user_prompt body) = Except.error e) :
    format_update gw body s = Except.error e ∧ runOp s (Op.format gw body) = s := by
  constructor
  · simp [format_update, hgw]
  · simp [runOp, format_update, hgw]

theorem spec_C2_witness :
    format_update (gwFail ("boom")) ([] : Body) initState = Except.error ("boom")
      ∧ runOp initState (Op.format (gwFail ("boom")) ([] : Body)) = initState :=
  spec_C2_gateway_failure_no_mutation (gwFail ("boom")) ([] : Body) initState ("boom") rfl

/-- C6: a successful format request whose project id is absent, null, or
not a key of the message store alters no stored message sequence (the
append is silently skipped) and still returns the text produced by the
gateway. -/
theorem spec_C6_unknown_id_no_mutation (gw : Completion) (body : Body)
    (s : AppState) (txt : String) (s2 : AppState)
    (hid : bodyGet body projectIdKey = none
        ∨ bodyGet body projectIdKey = some JVal.null
        ∨ ∃ t, bodyGet body projectIdKey = some (JVal.str t)
            ∧ dictGet s.project_messages t = none)
    (hok : format_update gw body s = Except.ok (txt, s2)) :
    s2 = s ∧ gw formatSystem (format_user_prompt body) = Except.ok txt := by
  cases hg : gw formatSystem (format_user_prompt body) with
  | error e => simp [format_update, hg] at hok
  | ok t =>
      have hcond : (truthy (jget body projectIdKey)
          && dictMem s.project_messages (pyStr (jget body projectIdKey))) = false := by
        rcases hid with h | h | ⟨t2, h, hget⟩
        · simp [jget, h, truthy]
        · simp [jget, h, truthy]
        · simp [jget, h, pyStr, dictMem, hget]
      simp [format_update, hg, hcond] at hok
      refine ⟨hok.2.symm, ?_⟩
      rw [hok.1]

theorem spec_C6_witness :
    initState = initState
      ∧ gwOk ("F") formatSystem (format_user_prompt bodyUnknown) = Except.ok ("F") :=
  spec_C6_unknown_id_no_mutation (gwOk ("F")) bodyUnknown initState ("F") initState
    (Or.inr (Or.inr ⟨"zz", rfl, rfl⟩)) rfl

/-- C1: a successful format request whose project id is a key of the
message store of a reachable state appends exactly two entries to that
project's sequence, in order: a user message holding the input update and
a bot message holding the formatted text the gateway returned (which is
also the handler's response); every other project's sequence, and the
project list, are unchanged. -/
theorem spec_C1_format_appends_pair (gw : Completion) (body : Body) (s : AppState)
    (hreach : Reachable s) (pid : String)
    (hpid : bodyGet body projectIdKey = some (JVal.str pid))
    (msgs : List Message) (hkey : dictGet s.project_messages pid = some msgs)
    (txt : String) (s2 : AppState)
    (hok : format_update gw body s = Except.ok (txt, s2)) :
    gw formatSystem (format_user_prompt body) = Except.ok txt
      ∧ dictGet s2.project_messages pid
          = some (msgs ++ [⟨roleUser, jget body updateKey⟩, ⟨roleBot, JVal.str txt⟩])
      ∧ (∀ k, k ≠ pid → dictGet s2.project_messages k = dictGet s.project_messages k)
      ∧ s2.projects = s.projects := by
  have hne : pid ≠ "" := reachable_key_ne_empty s hreach pid msgs hkey
  cases hg : gw formatSystem (format_user_prompt body) with
  | error e => simp [format_update, hg] at hok
  | ok t =>
      have hjget : jget body projectIdKey = JVal.str pid := by simp [jget, hpid]
      simp only [format_update, hg, hjget] at hok
      have hcond : (truthy (JVal.str pid)
          && dictMem s.project_messages (pyStr (JVal.str pid))) = true := by
        simp [truthy, pyStr, dictMem, hkey, hne]
      rw [hcond] at hok
      simp only [if_true, Except.ok.injEq, Prod.mk.injEq] at hok
      obtain ⟨ht, hs⟩ := hok
      refine ⟨by rw [ht], ?_, ?_, ?_⟩
      · rw [← ht, ← hs]
        have h1 := dictGet_dictAppendMsg_self s.project_messages pid
          ⟨roleUser, jget body updateKey⟩ msgs hkey
        have h2 := dictGet_dictAppendMsg_self
          (dictAppendMsg s.project_messages pid ⟨roleUser, jget body updateKey⟩) pid
          ⟨roleBot, JVal.str t⟩ (msgs ++ [⟨roleUser, jget body updateKey⟩]) h1
        simpa [pyStr] using h2
      · intro k hk
        rw [← hs]
        have h1 := dictGet_dictAppendMsg_other s.project_messages pid k
          ⟨roleUser, jget body updateKey⟩ hk
        have h2 := dictGet_dictAppendMsg_other
          (dictAppendMsg s.project_messages pid ⟨roleUser, jget body updateKey⟩) pid k
          ⟨roleBot, JVal.str t⟩ hk
        simpa [pyStr, h1] using h2
      · rw [← hs]

theorem spec_C1_witness :
    gwOk ("F") formatSystem (format_user_prompt bodyKnown) = Except.ok ("F")
      ∧ dictGet stateTwo.project_messages (genId 0)
          = some ([] ++ [⟨roleUser, jget bodyKnown updateKey⟩, ⟨roleBot, JVal.str ("F")⟩])
      ∧ (∀ k, k ≠ genId 0 →
          dictGet stateTwo.project_messages k = dictGet stateOne.project_messages k)
      ∧ stateTwo.projects = stateOne.projects :=
  spec_C1_format_appends_pair (gwOk ("F")) bodyKnown stateOne
    ⟨[Op.createProject []], rfl⟩ (genId 0) rfl [] rfl ("F") stateTwo rfl

/-- C5: in every reachable state, every project id that is a key of the
message mapping has a corresponding entry in the project sequence. -/
theorem spec_C5_message_keys_have_projects (s : AppState) (hreach : Reachable s) :
    ∀ e ∈ s.project_messages, ∃ p ∈ s.projects, p.id = e.1 :=
  (storeInv_reachable s hreach).2.2

theorem spec_C5_witness :
    ∃ p ∈ stateOne.projects, p.id = genId 0 :=
  spec_C5_message_keys_have_projects stateOne ⟨[Op.createProject []], rfl⟩
    (genId 0, ([] : List Message)) (by decide)

/-- C4: a creation without a name field in any reachable state (reached by
the request sequence `ops`) names the project after the number of earlier
creations — in particular the first such creation is named Project 1 —
generates an id distinct from all existing project ids, appends the
project to the project sequence, and installs an empty message sequence
under the new id. -/
theorem spec_C4_create_defaults (ops : List Op) (body : Body)
    (hname : bodyGet body nameKey = none) :
    (create_project body (runOps initState ops)).1.name
        = JVal.str ("Project " ++ toString (countCreates ops + 1))
      ∧ (countCreates ops = 0 →
          (create_project body (runOps initState ops)).1.name = JVal.str ("Project 1"))
      ∧ (∀ p ∈ (runOps initState ops).projects,
          p.id ≠ (create_project body (runOps initState ops)).1.id)
      ∧ (create_project body (runOps initState ops)).2.projects
          = (runOps initState ops).projects ++ [(create_project body (runOps initState ops)).1]
      ∧ dictGet (create_project body (runOps initState ops)).2.project_messages
          (create_project body (runOps initState ops)).1.id = some [] := by
  have hlen : (runOps initState ops).projects.length = countCreates ops := by
    rw [length_projects_runOps]
    simp [initState]
  refine ⟨?_, ?_, ?_, ?_, ?_⟩
  · simp [create_project, jgetD, hname, hlen]
  · intro h0
    simp only [create_project, jgetD, hname, hlen, h0, Option.getD_none]
    rfl
  · intro p hp hid
    obtain ⟨_, h2, _⟩ := storeInv_runOps ops initState storeInv_initState
    obtain ⟨m, hm, hgen⟩ := h2 p hp
    have : genId m = genId (runOps initState ops).nextId := by
      rw [← hgen, hid]
      simp [create_project]
    exact absurd (genId_injective this) (Nat.ne_of_lt hm)
  · simp [create_project]
  · simp only [create_project]
    exact dictGet_dictSet_self _ _ _

theorem spec_C4_witness :
    (create_project ([] : Body) (runOps initState [])).1.name
        = JVal.str ("Project " ++ toString (countCreates [] + 1))
      ∧ (countCreates [] = 0 →
          (create_project ([] : Body) (runOps initState [])).1.name = JVal.str ("Project 1"))
      ∧ (∀ p ∈ (runOps initState []).projects,
          p.id ≠ (create_project ([] : Body) (runOps initState [])).1.id)
      ∧ (create_project ([] : Body) (runOps initState [])).2.projects
          = (runOps initState []).projects ++ [(create_project ([] : Body) (runOps initState [])).1]
      ∧ dictGet (create_project ([] : Body) (runOps initState [])).2.project_messages
          (create_project ([] : Body) (runOps initState [])).1.id = some [] :=
  spec_C4_create_defaults [] ([] : Body) rfl

set_option maxRecDepth 40000 in
/-- C3 counterexample: with the update field absent from the body, the
format prompt interpolates the Python rendering of null — the word None —
so the built prompt is not the prompt with an empty-string substitution,
contrary to the claim that absent fields substitute as the empty string. -/
theorem spec_C3_counterexample :
    pyStr (jget ([] : Body) updateKey) = "None"
      ∧ format_user_prompt ([] : Body) ≠ format_prompt ("") := by
  constructor
  · rfl
  · decide

/-- C3 amended: an absent update field is interpolated into every prompt as
the word None (the textual rendering of the Python null), while the
project_name and sentiment fields — which carry explicit empty-string
defaults — are interpolated as the empty string when absent. -/
theorem spec_C3_absent_field_rendering (body : Body)
    (h1 : bodyGet body updateKey = none)
    (h2 : bodyGet body projectNameKey = none)
    (h3 : bodyGet body sentimentKey = none) :
    format_user_prompt body = format_prompt ("None")
      ∧ summarize_user_prompt body = summarize_prompt ("None")
      ∧ action_user_prompt body = action_items_prompt ("") ("None")
      ∧ sentiment_user_prompt body = sentiment_prompt ("") ("None")
      ∧ email_user_prompt body = email_prompt ("") ("") ("None") := by
  refine ⟨?_, ?_, ?_, ?_, ?_⟩ <;>
    simp [format_user_prompt, summarize_user_prompt, action_user_prompt,
      sentiment_user_prompt, email_user_prompt, jget, jgetD, h1, h2, h3, pyStr]

theorem spec_C3_witness :
    format_user_prompt ([] : Body) = format_prompt ("None")
      ∧ summarize_user_prompt ([] : Body) = summarize_prompt ("None")
      ∧ action_user_prompt ([] : Body) = action_items_prompt ("") ("None")
      ∧ sentiment_user_prompt ([] : Body) = sentiment_prompt ("") ("None")
      ∧ email_user_prompt ([] : Body) = email_prompt ("") ("") ("None") :=
  spec_C3_absent_field_rendering ([] : Body) rfl rfl rfl

/-- C9: the sentiment and action-items handlers return the provider text
with surrounding whitespace stripped, while format, summarize and
generate-email return the provider text unchanged; on a provider output
with surrounding whitespace the first two therefore differ from the
provider text. -/
theorem spec_C9_strip_only_sentiment_and_actions :
    (∀ (gw : Completion) (body : Body) (s : AppState) (t : String),
        gw actionItemsSystem (action_user_prompt body) = Except.ok t →
          extract_action_items gw body s = Except.ok (pyStrip t, s))
      ∧ (∀ (gw : Completion) (body : Body) (s : AppState) (t : String),
          gw sentimentSystem (sentiment_user_prompt body) = Except.ok t →
            analyze_sentiment gw body s = Except.ok (pyStrip t, s))
      ∧ (∀ (gw : Completion) (body : Body) (s : AppState) (t : String),
          gw formatSystem (format_user_prompt body) = Except.ok t →
            ∃ s2, format_update gw body s = Except.ok (t, s2))
      ∧ (∀ (gw : Completion) (body : Body) (s : AppState) (t : String),
          gw summarizeSystem (summarize_user_prompt body) = Except.ok t →
            summarize_project gw body s = Except.ok (t, s))
      ∧ (∀ (gw : Completion) (body : Body) (s : AppState) (t : String),
          gw emailSystem (email_user_prompt body) = Except.ok t →
            generate_email gw body s = Except.ok (t, s))
      ∧ pyStrip (" padded ") ≠ " padded " := by
  refine ⟨?_, ?_, ?_, ?_, ?_, ?_⟩
  · intro gw body s t h
    simp [extract_action_items, h]
  · intro gw body s t h
    simp [analyze_sentiment, h]
  · intro gw body s t h
    by_cases hc : (truthy (jget body projectIdKey)
        && dictMem s.project_messages (pyStr (jget body projectIdKey))) = true
    · refine ⟨{ s with project_messages := dictAppendMsg (dictAppendMsg s.project_messages (pyStr (jget body projectIdKey)) ⟨roleUser, jget body updateKey⟩) (pyStr (jget body projectIdKey)) ⟨roleBot, JVal.str t⟩ }, ?_⟩
      simp [format_update, h, hc]
    · refine ⟨s, ?_⟩
      simp [format_update, h, hc]
  · intro gw body s t h
    simp [summarize_project, h]
  · intro gw body s t h
    simp [generate_email, h]
  · decide

theorem spec_C9_witness :
    extract_action_items (gwOk (" padded ")) ([] : Body) initState
        = Except.ok (pyStrip (" padded "), initState)
      ∧ analyze_sentiment (gwOk (" padded ")) ([] : Body) initState
        = Except.ok (pyStrip (" padded "), initState)
      ∧ (∃ s2, format_update (gwOk (" padded ")) ([] : Body) initState
        = Except.ok (" padded ", s2))
      ∧ summarize_project (gwOk (" padded ")) ([] : Body) initState
        = Except.ok (" padded ", initState)
      ∧ generate_email (gwOk (" padded ")) ([] : Body) initState
        = Except.ok (" padded ", initState)
      ∧ pyStrip (" padded ") ≠ " padded " := by
  obtain ⟨h1, h2, h3, h4, h5, h6⟩ := spec_C9_strip_only_sentiment_and_actions
  exact ⟨h1 _ _ _ _ rfl, h2 _ _ _ _ rfl, h3 _ _ _ _ rfl, h4 _ _ _ _ rfl,
    h5 _ _ _ _ rfl, h6⟩
